import Mathlib

/-!
Verification of the wallet-authentication core of the NexaCred backend
(`src/backend/Backend/controllers/userController.js`): the `walletAuth`
request handler (POST /api/users/wallet-auth) and, for token-lifetime
comparison, the `loginUser` handler.

The JavaScript handler is embedded shallowly as pure Lean functions.
External collaborators (ethers signature recovery, bcrypt hashing,
`Math.random`, the clock, Mongo id generation, the JWT secret, and
concurrent writers to the store) are modelled as parameters collected in
an `Env` record.  The persistent store is a list of user records.
Timestamps are natural numbers.
-/

namespace NexaCred

/-- Char-by-char lower-casing, modelling JavaScript `toLowerCase()` on the
ASCII strings (hex addresses) the controller applies it to. -/
def jsToLower (s : String) : String := ⟨s.data.map Char.toLower⟩

/-- The last `n` characters of a string, modelling JavaScript `s.slice(-n)`. -/
def jsSliceLast (n : Nat) (s : String) : String :=
  ⟨s.data.drop (s.data.length - n)⟩

/-- A hexadecimal digit, as matched by the character class `[a-fA-F0-9]`. -/
def isHexDigit (c : Char) : Bool :=
  ('0' ≤ c && c ≤ '9') || ('a' ≤ c && c ≤ 'f') || ('A' ≤ c && c ≤ 'F')

/-- The controller's address-format test
`/^0x[a-fA-F0-9]{40}$/.test(walletAddress)`. -/
def isValidWalletAddress (s : String) : Bool :=
  match s.data with
  | '0' :: 'x' :: rest => rest.length == 40 && rest.all isHexDigit
  | _ => false

/-- JavaScript falsiness of an optional request-body string field:
an absent field (`undefined`) and the empty string are both falsy. -/
def falsy : Option String → Bool
  | none => true
  | some s => s == ""

/-- One document of the `User` collection, with the fields the embedded
handlers read or write.  Dates are modelled as natural-number timestamps. -/
structure UserRecord where
  id : Nat
  username : String
  email : String
  passwordHash : String
  walletAddress : Option String
  walletConnectedAt : Option Nat
  lastWalletActivity : Option Nat
  firstName : String
  lastName : String
  dateOfBirth : Nat
  phoneNumber : String
  pan : String
  aadhaar : String
  streetAddress : String
  areaLocality : String
  city : String
  state : String
  pinCode : String
  country : String
  employmentStatus : String
  occupationCategory : String
  companyName : String
  yearsOfExperience : Nat
  monthlyIncomeRange : String
  hasCreditAccounts : Bool
  creditPurpose : String
  hasBankAccount : Bool
  primaryBankName : String
  existingCreditScore : Nat
  termsAccepted : Bool
  privacyPolicyAccepted : Bool
  consentCreditBureau : Bool
  ageVerified : Bool
  itrStatus : String
deriving DecidableEq, Repr

/-- The persistent store: the list of user documents, in insertion order. -/
abbrev DB := List UserRecord

/-- `User.findOne({ walletAddress: addr })`: first document whose
`walletAddress` equals `addr`. -/
def dbFindByWallet (db : DB) (addr : String) : Option UserRecord :=
  List.find? (fun v => decide (v.walletAddress = some addr)) db

/-- `user.save()` after mutating a fetched document: the document with the
same `id` is replaced in place. -/
def dbSaveById (db : DB) (u : UserRecord) : DB :=
  List.map (fun v => if v.id = u.id then u else v) db

/-- Store-side creation failures. -/
inductive DbError where
  | duplicateKey
deriving DecidableEq, Repr

/-- `User.create` under the `userSchema` of the User model
(`modals/User.js`, staged at the tail of `src/README.md`): `username` and
`email` carry unique indexes and `walletAddress` a sparse unique index,
so creation is rejected with a duplicate-key error when an existing
document collides on `username`, on `email`, or on a non-null
`walletAddress`; otherwise the new document is appended.  Per-field
pattern and enum validation is not modelled: the only creation embedded
here is `walletAuth`'s, whose synthesized document satisfies it. -/
def dbCreate (db : DB) (u : UserRecord) : Except DbError DB :=
  if db.any (fun v => decide (v.username = u.username))
      || db.any (fun v => decide (v.email = u.email))
      || (u.walletAddress.isSome
          && db.any (fun v => decide (v.walletAddress = u.walletAddress))) then
    Except.error DbError.duplicateKey
  else
    Except.ok (db ++ [u])

/-- The claims carried by a JWT issued by these handlers.  `walletAddress`
is `none` for tokens from `loginUser`, whose payload omits that claim. -/
structure JwtClaims where
  userId : Nat
  username : String
  email : String
  walletAddress : Option String
deriving DecidableEq, Repr

/-- A signed token: `jwt.sign(claims, secret, { expiresIn })`, with the
expiry interval in seconds. -/
structure Token where
  claims : JwtClaims
  secret : String
  expiresInSeconds : Nat
deriving DecidableEq, Repr

/-- `n` hours in seconds; the source writes the jwt expiry strings
`"24h"` and `"1h"`. -/
def hoursInSeconds (n : Nat) : Nat := n * 3600

/-- The user object embedded in a successful wallet-auth response body:
the handler copies exactly these fields of the resolved document. -/
structure PublicUser where
  id : Nat
  username : String
  email : String
  walletAddress : Option String
  firstName : String
  lastName : String
  walletConnectedAt : Option Nat
deriving DecidableEq, Repr

/-- Projection of a stored document to the wallet-auth response shape. -/
def toPublicUser (u : UserRecord) : PublicUser :=
  { id := u.id
    username := u.username
    email := u.email
    walletAddress := u.walletAddress
    firstName := u.firstName
    lastName := u.lastName
    walletConnectedAt := u.walletConnectedAt }

/-- The wallet-auth HTTP response: `res.json({token, user})` (status 200),
`res.status(400).json({error})`, or `res.status(500).json({error})`. -/
inductive Response where
  | ok (token : Token) (user : PublicUser)
  | badRequest (error : String)
  | serverError (error : String)
deriving DecidableEq, Repr

/-- The HTTP status code of a response. -/
def Response.status : Response → Nat
  | Response.ok _ _ => 200
  | Response.badRequest _ => 400
  | Response.serverError _ => 500

/-- The `loginUser` HTTP response; its 200 body `res.json({token, user})`
serialises the whole stored document. -/
inductive LoginResponse where
  | ok (token : Token) (user : UserRecord)
  | badRequest (error : String)
deriving DecidableEq, Repr

/-- The request body of POST /api/users/wallet-auth; `none` models an
absent (`undefined`) field. -/
structure WalletAuthRequest where
  walletAddress : Option String
  message : Option String
  signature : Option String
deriving DecidableEq, Repr

/-- Everything ambient the handler consumes: the ethers signature
recovery, bcrypt hashing, the generated default password, the clock, the
id the store assigns at creation, the JWT secret, and the writes other
concurrent requests commit between this handler's lookup and its create
(the two store suspension points); `interfere = id` is a run without
concurrent interference. -/
structure Env where
  recover : String → String → Except String String
  hashPassword : String → String
  defaultPassword : String
  now : Nat
  newId : Nat
  secret : String
  interfere : DB → DB

/-- The inner try/catch around `ethers.verifyMessage`: `true` when the
handler proceeds past signature verification.  On successful recovery the
recovered address must match the claimed one case-insensitively; when
recovery throws, the catch block only logs a warning and falls through,
accepting the request (the source comment: Fallback, accept the signature
for development). -/
def sigAccepted (env : Env) (walletAddress message signature : String) : Bool :=
  match env.recover message signature with
  | Except.ok recoveredAddress =>
      jsToLower recoveredAddress == jsToLower walletAddress
  | Except.error _ => true

/-- The document synthesised for a first-time wallet authentication
(`User.create({...})` in `walletAuth`). -/
def synthesizeWalletUser (env : Env) (walletAddress : String) : UserRecord :=
  { id := env.newId
    username := "wallet_" ++ jsToLower (jsSliceLast 8 walletAddress)
    email := jsToLower walletAddress ++ "@nexacred.wallet"
    passwordHash := env.hashPassword env.defaultPassword
    walletAddress := some (jsToLower walletAddress)
    walletConnectedAt := some env.now
    lastWalletActivity := some env.now
    firstName := "Wallet"
    lastName := "User"
    dateOfBirth := 631152000
    phoneNumber := "+919999999999"
    pan := "AAAAA0000A"
    aadhaar := "999999999999"
    streetAddress := "Web3 Address"
    areaLocality := "Blockchain"
    city := "Crypto"
    state := "Decentralized"
    pinCode := "000000"
    country := "Global"
    employmentStatus := "Self-employed Professional"
    occupationCategory := "Other Professional"
    companyName := "Decentralized Autonomous"
    yearsOfExperience := 1
    monthlyIncomeRange := "₹50,000 - ₹1,00,000"
    hasCreditAccounts := false
    creditPurpose := "Personal Loan"
    hasBankAccount := true
    primaryBankName := "Crypto Bank"
    existingCreditScore := 650
    termsAccepted := true
    privacyPolicyAccepted := true
    consentCreditBureau := true
    ageVerified := true
    itrStatus := "Filed ITR in past 2 years" }

/-- A successful wallet-auth response for the resolved document `u`:
the 24-hour JWT over `{userId, username, email, walletAddress}` and the
limited user projection. -/
def mkWalletSuccess (secret : String) (u : UserRecord) : Response :=
  Response.ok
    { claims := { userId := u.id, username := u.username, email := u.email,
                  walletAddress := u.walletAddress }
      secret := secret
      expiresInSeconds := hoursInSeconds 24 }
    (toPublicUser u)

/-- Lines 157-231 of the controller: resolve the verified address to a
document (lookup, then update-activity or create), then issue the token.
The result pairs the response with the store contents after the request;
a `User.create` failure is caught by the handler's outer catch and
answered with a 500. -/
def resolveAndRespond (env : Env) (walletAddress : String) (db : DB) :
    Response × DB :=
  match dbFindByWallet db (jsToLower walletAddress) with
  | some user =>
      (mkWalletSuccess env.secret { user with lastWalletActivity := some env.now },
       dbSaveById db { user with lastWalletActivity := some env.now })
  | none =>
      match dbCreate (env.interfere db) (synthesizeWalletUser env walletAddress) with
      | Except.ok db2 =>
          (mkWalletSuccess env.secret (synthesizeWalletUser env walletAddress), db2)
      | Except.error _ =>
          (Response.serverError "Server error during wallet authentication",
           env.interfere db)

/-- The `walletAuth` handler (POST /api/users/wallet-auth), lines 131-236
of `userController.js`: field-presence check, address-format check,
signature verification, identity resolution, token issuance. -/
def walletAuth (env : Env) (req : WalletAuthRequest) (db : DB) :
    Response × DB :=
  if falsy req.walletAddress || falsy req.message || falsy req.signature then
    (Response.badRequest "Wallet address, message, and signature are required", db)
  else if !isValidWalletAddress (req.walletAddress.getD "") then
    (Response.badRequest "Invalid wallet address format", db)
  else if !sigAccepted env (req.walletAddress.getD "")
      (req.message.getD "") (req.signature.getD "") then
    (Response.badRequest "Invalid signature", db)
  else
    resolveAndRespond env (req.walletAddress.getD "") db

/-- The `loginUser` handler (POST /api/users/login), lines 50-73:
username lookup, bcrypt comparison (modelled by the `compare` oracle),
then a 1-hour JWT over `{userId, username, email}`. -/
def loginUser (compare : String → String → Bool) (secret : String)
    (username password : String) (db : DB) : LoginResponse :=
  match List.find? (fun v => v.username == username) db with
  | none => LoginResponse.badRequest "Invalid credentials"
  | some user =>
      if compare password user.passwordHash then
        LoginResponse.ok
          { claims := { userId := user.id, username := user.username,
                        email := user.email, walletAddress := none }
            secret := secret
            expiresInSeconds := hoursInSeconds 1 }
          user
      else LoginResponse.badRequest "Invalid credentials"

/-- Replacing the stored credential hash of a document (and nothing else). -/
def setHash (f : String → String) (u : UserRecord) : UserRecord :=
  { u with passwordHash := f u.passwordHash }

/-! ### Concrete fixtures used by counterexamples and witnesses -/

/-- A well-formed lower-case wallet address. -/
def addrLo : String := "0x1234567890123456789012345678901234567890"

/-- A well-formed address whose hex digits include letters, lower case. -/
def addrCaseLo : String := "0xabcdef1234567890abcdef1234567890abcdef12"

/-- The upper-case variant of the hex digits of [addrCaseLo]. -/
def addrCaseUp : String := "0xABCDEF1234567890ABCDEF1234567890ABCDEF12"

/-- A well-formed address ending in the eight characters `90abcdef`. -/
def addrSufA : String := "0xaaaaaaaaaaaaaaaaaaaaaaaaaaaaaaaa90abcdef"

/-- A distinct well-formed address with the same final eight characters. -/
def addrSufB : String := "0xbbbbbbbbbbbbbbbbbbbbbbbbbbbbbbbb90abcdef"

/-- A baseline environment whose recovery succeeds with [addrLo]. -/
def envBase : Env :=
  { recover := fun _ _ => Except.ok addrLo
    hashPassword := fun _ => "HASH"
    defaultPassword := "pw"
    now := 100
    newId := 7
    secret := "top"
    interfere := id }

/-- An environment in which `ethers.verifyMessage` throws. -/
def envRecErr : Env := { envBase with recover := fun _ _ => Except.error "bad signature" }

/-- An environment in which, between this handler's lookup and its create,
a concurrent request commits a record for the same wallet address. -/
def envRace : Env :=
  { envBase with interfere := fun db => db ++ [synthesizeWalletUser envBase addrLo] }

/-- A later run of the baseline environment (second request). -/
def envLater : Env := { envBase with now := 200, newId := 8 }

/-- An environment whose recovery succeeds with [addrSufA]. -/
def envSufA : Env := { envBase with recover := fun _ _ => Except.ok addrSufA }

/-- An environment for a later request recovering [addrSufB]. -/
def envSufB : Env :=
  { envBase with recover := fun _ _ => Except.ok addrSufB, newId := 8, now := 200 }

/-- A complete wallet-auth request for [addrLo]. -/
def reqLo : WalletAuthRequest := ⟨some addrLo, some "Sign in to NexaCred", some "0xsig"⟩

/-- A complete wallet-auth request for [addrSufB]. -/
def reqSufB : WalletAuthRequest := ⟨some addrSufB, some "Sign in to NexaCred", some "0xsig"⟩

/-- A request whose wallet address fails the format test. -/
def reqBadAddr : WalletAuthRequest := ⟨some "0x123", some "msg", some "sig"⟩

/-- An environment whose recovery succeeds with the unrelated [addrSufA],
so that recovery mismatches a claim of [addrLo]. -/
def envMismatch : Env := { envBase with recover := fun _ _ => Except.ok addrSufA }

/-- An environment whose recovery succeeds with [addrCaseUp]. -/
def envCase : Env := { envBase with recover := fun _ _ => Except.ok addrCaseUp }

/-- The record the baseline environment synthesises for [addrLo]. -/
def userLo : UserRecord := synthesizeWalletUser envBase addrLo

/-- The 24-hour token wallet-auth issues for [userLo] under [envBase]. -/
def tokWallet24 : Token :=
  { claims := { userId := userLo.id, username := userLo.username,
                email := userLo.email, walletAddress := userLo.walletAddress }
    secret := envBase.secret
    expiresInSeconds := hoursInSeconds 24 }

/-- The 1-hour token `loginUser` issues for [userLo]. -/
def tokLogin1 : Token :=
  { claims := { userId := userLo.id, username := userLo.username,
                email := userLo.email, walletAddress := none }
    secret := "top"
    expiresInSeconds := hoursInSeconds 1 }

/-! ### Helper lemmas -/

theorem valid_ne_empty {s : String} (h : isValidWalletAddress s = true) : s ≠ "" := by
  intro he
  rw [he] at h
  revert h
  decide

theorem falsy_eq_false_of_valid {s : String}
    (h : isValidWalletAddress s = true) : falsy (some s) = false := by
  simpa [falsy] using beq_eq_false_iff_ne.mpr (valid_ne_empty h)

theorem jsToLower_sliceLast (n : Nat) (s : String) :
    jsToLower (jsSliceLast n s) = jsSliceLast n (jsToLower s) := by
  simp [jsToLower, jsSliceLast, List.map_drop]

theorem synthesize_congr {wa1 wa2 : String} (env : Env)
    (hlow : jsToLower wa1 = jsToLower wa2) :
    synthesizeWalletUser env wa1 = synthesizeWalletUser env wa2 := by
  simp only [synthesizeWalletUser, jsToLower_sliceLast, hlow]

theorem sigAccepted_congr {wa1 wa2 : String} (env : Env) (msg sig : String)
    (hlow : jsToLower wa1 = jsToLower wa2) :
    sigAccepted env wa1 msg sig = sigAccepted env wa2 msg sig := by
  unfold sigAccepted
  cases env.recover msg sig with
  | ok r => rw [hlow]
  | error e => rfl

theorem dbAny_eq_false_of_find_none {db : DB} {a : String}
    (h : dbFindByWallet db a = none) :
    db.any (fun v => decide (v.walletAddress = some a)) = false := by
  unfold dbFindByWallet at h
  rw [List.find?_eq_none] at h
  rw [List.any_eq_false]
  intro v hv
  simpa using h v hv

theorem dbFind_append_singleton {db : DB} {a : String} {u : UserRecord}
    (h : dbFindByWallet db a = none) (hu : u.walletAddress = some a) :
    dbFindByWallet (db ++ [u]) a = some u := by
  unfold dbFindByWallet at h ⊢
  rw [List.find?_append, h]
  simp [List.find?, hu]

theorem dbFindByWallet_map_setHash (f : String → String) (db : DB) (a : String) :
    dbFindByWallet (db.map (setHash f)) a
      = Option.map (setHash f) (dbFindByWallet db a) := by
  induction db with
  | nil => rfl
  | cons v t ih =>
      unfold dbFindByWallet at ih ⊢
      cases hp : decide (v.walletAddress = some a) with
      | true => simp [List.find?, setHash, hp]
      | false => simpa [List.find?, setHash, hp] using ih

@[simp] theorem synthesize_walletAddress (env : Env) (wa : String) :
    (synthesizeWalletUser env wa).walletAddress = some (jsToLower wa) := rfl

/-! ### Claim theorems -/

/-- C1: the spec requires that whenever signature recovery itself raises an
error, the endpoint answers 400 and performs no identity resolution or
token issuance.  The code instead catches the recovery error, only logs a
warning, and proceeds: at a concrete request whose recovery throws, the
handler creates a record and answers 200 with a signed token. -/
theorem walletAuth_accepts_malformed_signature :
    walletAuth envRecErr reqLo []
        = (mkWalletSuccess envRecErr.secret (synthesizeWalletUser envRecErr addrLo),
           [synthesizeWalletUser envRecErr addrLo])
      ∧ (walletAuth envRecErr reqLo []).fst.status = 200 := ⟨rfl, rfl⟩

/-- C2 counterexample: at a concrete request where a concurrent insert for
the same address lands between the lookup and the create (so the create
fails with a duplicate-key error), the handler answers 500; it does not
re-resolve by lookup and does not treat the race as success. -/
theorem walletAuth_race_returns_server_error :
    dbFindByWallet [] (jsToLower addrLo) = none
      ∧ dbCreate (envRace.interfere []) (synthesizeWalletUser envRace addrLo)
          = Except.error DbError.duplicateKey
      ∧ (walletAuth envRace reqLo []).fst
          = Response.serverError "Server error during wallet authentication"
      ∧ (walletAuth envRace reqLo []).fst.status = 500 := ⟨rfl, rfl, rfl, rfl⟩

/-- C2 amended: when the record-creation attempt of a wallet-auth request
fails because a concurrent request already created a record for the same
wallet address (unique-constraint violation), the handler answers 500,
exactly as for any other persistence failure; no lookup re-resolution is
attempted. -/
theorem walletAuth_create_conflict_500
    (env : Env) (req : WalletAuthRequest) (db : DB) (wa : String)
    (hwa : req.walletAddress = some wa)
    (hm : falsy req.message = false)
    (hs : falsy req.signature = false)
    (hv : isValidWalletAddress wa = true)
    (hacc : sigAccepted env wa (req.message.getD "") (req.signature.getD "") = true)
    (hfind : dbFindByWallet db (jsToLower wa) = none)
    (hconf : (env.interfere db).any
        (fun v => decide (v.walletAddress = some (jsToLower wa))) = true) :
    walletAuth env req db
      = (Response.serverError "Server error during wallet authentication",
         env.interfere db) := by
  have hf : falsy (some wa) = false := falsy_eq_false_of_valid hv
  have hcr : dbCreate (env.interfere db) (synthesizeWalletUser env wa)
      = Except.error DbError.duplicateKey := by
    unfold dbCreate
    rw [if_pos (by simp [synthesize_walletAddress, hconf])]
  simp [walletAuth, hwa, hf, hm, hs, hv, hacc, resolveAndRespond, hfind, hcr]

/-- C5: for every request whose wallet address fails the format test
(`0x` + 40 hex digits), the endpoint answers 400, the store is unchanged,
and the outcome does not depend on the signature verifier (which is never
consulted). -/
theorem walletAuth_malformed_address_rejected
    (env : Env) (r2 : String → String → Except String String)
    (req : WalletAuthRequest) (db : DB) (wa : String)
    (hwa : req.walletAddress = some wa)
    (hinvalid : isValidWalletAddress wa = false) :
    (walletAuth env req db).fst.status = 400
      ∧ (walletAuth env req db).snd = db
      ∧ walletAuth { env with recover := r2 } req db = walletAuth env req db := by
  cases hc : (falsy req.walletAddress || falsy req.message || falsy req.signature) with
  | true => simp [walletAuth, hc, Response.status]
  | false =>
      simp only [Bool.or_eq_false_iff] at hc
      obtain ⟨⟨h1, h2⟩, h3⟩ := hc
      rw [hwa] at h1
      simp [walletAuth, hwa, h1, h2, h3, hinvalid, Response.status]

/-- C6: for every request where recovery succeeds but the recovered
address differs case-insensitively from the claimed one, the endpoint
answers 400 with the invalid-signature error and the store is unchanged
(no record created, none updated). -/
theorem walletAuth_signature_mismatch_rejected
    (env : Env) (req : WalletAuthRequest) (db : DB) (wa r : String)
    (hwa : req.walletAddress = some wa)
    (hm : falsy req.message = false)
    (hs : falsy req.signature = false)
    (hv : isValidWalletAddress wa = true)
    (hrec : env.recover (req.message.getD "") (req.signature.getD "") = Except.ok r)
    (hne : jsToLower r ≠ jsToLower wa) :
    walletAuth env req db = (Response.badRequest "Invalid signature", db) := by
  have hf : falsy (some wa) = false := falsy_eq_false_of_valid hv
  have hsa : sigAccepted env wa (req.message.getD "") (req.signature.getD "") = false := by
    unfold sigAccepted
    rw [hrec]
    exact beq_eq_false_iff_ne.mpr hne
  simp [walletAuth, hwa, hf, hm, hs, hv, hsa]

/-- C10: an empty-string walletAddress, message, or signature is treated
exactly like an absent field: the handler returns the 400 required-fields
error before any validation or verification, for every environment (so
even a verifier that would accept the empty message is never consulted). -/
theorem walletAuth_empty_equals_missing
    (env : Env) (wa msg sig : Option String) (db : DB) :
    walletAuth env ⟨some "", msg, sig⟩ db = walletAuth env ⟨none, msg, sig⟩ db
      ∧ walletAuth env ⟨wa, some "", sig⟩ db = walletAuth env ⟨wa, none, sig⟩ db
      ∧ walletAuth env ⟨wa, msg, some ""⟩ db = walletAuth env ⟨wa, msg, none⟩ db
      ∧ walletAuth env ⟨wa, some "", sig⟩ db
          = (Response.badRequest "Wallet address, message, and signature are required",
             db) := by
  refine ⟨?_, ?_, ?_, ?_⟩ <;> simp [walletAuth, falsy]

/-- C3: a second successful wallet-auth request for the same valid address
creates no new record: the first request appends exactly one synthesised
record, and the second returns that same record (same id), with
`walletConnectedAt` and every other field unchanged and only
`lastWalletActivity` rewritten to the later current time; the store keeps
its length. -/
theorem walletAuth_second_call_reuses_record
    (env1 env2 : Env) (req1 req2 : WalletAuthRequest) (db0 : DB) (wa : String)
    (h1 : req1.walletAddress = some wa)
    (h2 : req2.walletAddress = some wa)
    (hm1 : falsy req1.message = false) (hs1 : falsy req1.signature = false)
    (hm2 : falsy req2.message = false) (hs2 : falsy req2.signature = false)
    (hv : isValidWalletAddress wa = true)
    (ha1 : sigAccepted env1 wa (req1.message.getD "") (req1.signature.getD "") = true)
    (ha2 : sigAccepted env2 wa (req2.message.getD "") (req2.signature.getD "") = true)
    (hfind : dbFindByWallet db0 (jsToLower wa) = none)
    (hnun : db0.any
        (fun v => decide (v.username = (synthesizeWalletUser env1 wa).username)) = false)
    (hnem : db0.any
        (fun v => decide (v.email = (synthesizeWalletUser env1 wa).email)) = false)
    (hint : env1.interfere db0 = db0)
    (hlt : env1.now < env2.now) :
    walletAuth env1 req1 db0
        = (mkWalletSuccess env1.secret (synthesizeWalletUser env1 wa),
           db0 ++ [synthesizeWalletUser env1 wa])
      ∧ walletAuth env2 req2 (db0 ++ [synthesizeWalletUser env1 wa])
          = (mkWalletSuccess env2.secret
               { synthesizeWalletUser env1 wa with lastWalletActivity := some env2.now },
             dbSaveById (db0 ++ [synthesizeWalletUser env1 wa])
               { synthesizeWalletUser env1 wa with lastWalletActivity := some env2.now })
      ∧ ({ synthesizeWalletUser env1 wa with
            lastWalletActivity := some env2.now } : UserRecord).id
          = (synthesizeWalletUser env1 wa).id
      ∧ ({ synthesizeWalletUser env1 wa with
            lastWalletActivity := some env2.now } : UserRecord).walletConnectedAt
          = (synthesizeWalletUser env1 wa).walletConnectedAt
      ∧ (dbSaveById (db0 ++ [synthesizeWalletUser env1 wa])
           { synthesizeWalletUser env1 wa with lastWalletActivity := some env2.now }).length
          = (db0 ++ [synthesizeWalletUser env1 wa]).length
      ∧ env1.now < env2.now := by
  have hf : falsy (some wa) = false := falsy_eq_false_of_valid hv
  have hany0 : db0.any
      (fun v => decide (v.walletAddress = some (jsToLower wa))) = false :=
    dbAny_eq_false_of_find_none hfind
  have hcr : dbCreate (env1.interfere db0) (synthesizeWalletUser env1 wa)
      = Except.ok (db0 ++ [synthesizeWalletUser env1 wa]) := by
    unfold dbCreate
    rw [hint, if_neg (by simp [hnun, hnem, synthesize_walletAddress, hany0])]
  have hfind2 : dbFindByWallet (db0 ++ [synthesizeWalletUser env1 wa]) (jsToLower wa)
      = some (synthesizeWalletUser env1 wa) :=
    dbFind_append_singleton hfind rfl
  refine ⟨?_, ?_, rfl, rfl, ?_, hlt⟩
  · simp [walletAuth, h1, hf, hm1, hs1, hv, ha1, resolveAndRespond, hfind, hcr]
  · simp [walletAuth, h2, hf, hm2, hs2, hv, ha2, resolveAndRespond, hfind2]
  · simp [dbSaveById]

/-- C4: the outcome of wallet-auth is invariant under changing the case of
the hex digits of a well-formed address: two requests that differ only in
the case of the address (same message and signature) produce the same
response and the same store, because the address is lower-cased before
lookup, storage, and comparison. -/
theorem walletAuth_case_invariant
    (env : Env) (db : DB) (wa1 wa2 : String) (msg sig : Option String)
    (hlow : jsToLower wa1 = jsToLower wa2)
    (hv1 : isValidWalletAddress wa1 = true)
    (hv2 : isValidWalletAddress wa2 = true) :
    walletAuth env ⟨some wa1, msg, sig⟩ db = walletAuth env ⟨some wa2, msg, sig⟩ db := by
  have hf1 : falsy (some wa1) = false := falsy_eq_false_of_valid hv1
  have hf2 : falsy (some wa2) = false := falsy_eq_false_of_valid hv2
  cases hc : (falsy msg || falsy sig) with
  | true => simp [walletAuth, hf1, hf2, hc]
  | false =>
      have hsa := sigAccepted_congr env (msg.getD "") (sig.getD "") hlow
      cases hacc : sigAccepted env wa2 (msg.getD "") (sig.getD "") with
      | false => simp [walletAuth, hf1, hf2, hc, hv1, hv2, hsa, hacc]
      | true =>
          have hres : resolveAndRespond env wa1 db = resolveAndRespond env wa2 db := by
            unfold resolveAndRespond
            rw [hlow, synthesize_congr env hlow]
          simp [walletAuth, hf1, hf2, hc, hv1, hv2, hsa, hacc, hres]

theorem walletAuth_ok_expiry {env : Env} {req : WalletAuthRequest} {db : DB}
    {t : Token} {pu : PublicUser}
    (h : (walletAuth env req db).fst = Response.ok t pu) :
    t.expiresInSeconds = hoursInSeconds 24 := by
  unfold walletAuth at h
  split at h
  · simp at h
  · split at h
    · simp at h
    · split at h
      · simp at h
      · unfold resolveAndRespond at h
        split at h
        · simp only [mkWalletSuccess] at h
          injection h with h1 h2
          subst h1
          rfl
        · split at h
          · simp only [mkWalletSuccess] at h
            injection h with h1 h2
            subst h1
            rfl
          · simp at h

theorem loginUser_ok_expiry {compare : String → String → Bool}
    {secret un pw : String} {db : DB} {t2 : Token} {u2 : UserRecord}
    (h : loginUser compare secret un pw db = LoginResponse.ok t2 u2) :
    t2.expiresInSeconds = hoursInSeconds 1 := by
  unfold loginUser at h
  split at h
  · simp at h
  · split at h
    · injection h with h1 h2
      subst h1
      rfl
    · simp at h

/-- C7: every token issued by a successful wallet-auth request expires in
24 hours, every token issued by the traditional username/password login
expires in 1 hour, and the wallet-session lifetime is strictly longer. -/
theorem walletAuth_token_lifetimes
    (env : Env) (req : WalletAuthRequest) (db : DB)
    (t : Token) (pu : PublicUser)
    (compare : String → String → Bool) (secret un pw : String)
    (db2 : DB) (t2 : Token) (u2 : UserRecord)
    (hw : (walletAuth env req db).fst = Response.ok t pu)
    (hl : loginUser compare secret un pw db2 = LoginResponse.ok t2 u2) :
    t.expiresInSeconds = hoursInSeconds 24
      ∧ t2.expiresInSeconds = hoursInSeconds 1
      ∧ t2.expiresInSeconds < t.expiresInSeconds := by
  have hA := walletAuth_ok_expiry hw
  have hB := loginUser_ok_expiry hl
  refine ⟨hA, hB, ?_⟩
  rw [hA, hB]
  norm_num [hoursInSeconds]

theorem resolve_fst_map_setHash (env : Env) (wa : String) (db : DB)
    (f : String → String) (hint : ∀ d, env.interfere d = d) :
    (resolveAndRespond env wa (db.map (setHash f))).fst
      = (resolveAndRespond env wa db).fst := by
  unfold resolveAndRespond
  rw [dbFindByWallet_map_setHash]
  cases hfind : dbFindByWallet db (jsToLower wa) with
  | some u => rfl
  | none =>
      rw [hint, hint]
      have hU : ((db.map (setHash f)).any
            (fun v => decide (v.username = (synthesizeWalletUser env wa).username)))
          = (db.any
            (fun v => decide (v.username = (synthesizeWalletUser env wa).username))) := by
        rw [List.any_map]
        rfl
      have hE : ((db.map (setHash f)).any
            (fun v => decide (v.email = (synthesizeWalletUser env wa).email)))
          = (db.any
            (fun v => decide (v.email = (synthesizeWalletUser env wa).email))) := by
        rw [List.any_map]
        rfl
      have hW : ((db.map (setHash f)).any
            (fun v => decide (v.walletAddress = (synthesizeWalletUser env wa).walletAddress)))
          = (db.any
            (fun v => decide (v.walletAddress = (synthesizeWalletUser env wa).walletAddress))) := by
        rw [List.any_map]
        rfl
      unfold dbCreate
      rw [hU, hE, hW]
      cases hC : (db.any
            (fun v => decide (v.username = (synthesizeWalletUser env wa).username))
          || db.any (fun v => decide (v.email = (synthesizeWalletUser env wa).email))
          || ((synthesizeWalletUser env wa).walletAddress.isSome
              && db.any
                (fun v => decide (v.walletAddress = (synthesizeWalletUser env wa).walletAddress)))) with
      | true => simp [hC]
      | false => simp [hC]

/-- C8: the wallet-auth response never depends on the stored credential
hash: rewriting the `passwordHash` of every stored record (in particular
of the record the request resolves to) leaves the response body — token
and user object — unchanged, and no response constructor carries a
credential hash. -/
theorem walletAuth_response_hash_independent
    (env : Env) (req : WalletAuthRequest) (db : DB) (f : String → String)
    (hint : ∀ d, env.interfere d = d) :
    (walletAuth env req (db.map (setHash f))).fst
      = (walletAuth env req db).fst := by
  unfold walletAuth
  by_cases h1 : (falsy req.walletAddress || falsy req.message || falsy req.signature) = true
  · rw [if_pos h1, if_pos h1]
  · rw [if_neg h1, if_neg h1]
    by_cases h2 : (!isValidWalletAddress (req.walletAddress.getD "")) = true
    · rw [if_pos h2, if_pos h2]
    · rw [if_neg h2, if_neg h2]
      by_cases h3 : (!sigAccepted env (req.walletAddress.getD "")
          (req.message.getD "") (req.signature.getD "")) = true
      · rw [if_pos h3, if_pos h3]
      · rw [if_neg h3, if_neg h3]
        exact resolve_fst_map_setHash env (req.walletAddress.getD "") db f hint

/-- C9 counterexample: the synthesised display name is neither
collision-checked nor disambiguated via the primary key.  At a concrete
store already holding the record created for [addrSufA] (username
`wallet_90abcdef`), a first-time authentication of the distinct address
[addrSufB] (same final eight hex characters) synthesises the identical
username; the create is rejected by the unique username index and the
handler answers 500 with the store unchanged — no uniquified record is
ever produced. -/
theorem walletAuth_username_collision_500 :
    (synthesizeWalletUser envSufB addrSufB).username
        = (synthesizeWalletUser envSufA addrSufA).username
      ∧ addrSufA ≠ addrSufB
      ∧ dbFindByWallet [synthesizeWalletUser envSufA addrSufA] (jsToLower addrSufB) = none
      ∧ (walletAuth envSufB reqSufB [synthesizeWalletUser envSufA addrSufA]).fst
          = Response.serverError "Server error during wallet authentication"
      ∧ (walletAuth envSufB reqSufB [synthesizeWalletUser envSufA addrSufA]).snd
          = [synthesizeWalletUser envSufA addrSufA] :=
  ⟨rfl, by decide, rfl, rfl, rfl⟩

/-- C9 amended: for a first-time wallet authentication the synthesised
record's display name is derived deterministically from the final eight
characters of the address, lower-cased and prefixed with the fixed tag —
with no collision check and no disambiguation (a colliding name makes the
create fail, it is never uniquified); when no stored record collides on
username, email or address, the record is created with the hashed
generated credential, `walletConnectedAt` and `lastWalletActivity` set to
the current time, and fixed non-real placeholder values for the remaining
required profile fields. -/
theorem walletAuth_first_time_synthesis
    (env : Env) (req : WalletAuthRequest) (db : DB) (wa : String)
    (hwa : req.walletAddress = some wa)
    (hm : falsy req.message = false)
    (hs : falsy req.signature = false)
    (hv : isValidWalletAddress wa = true)
    (hacc : sigAccepted env wa (req.message.getD "") (req.signature.getD "") = true)
    (hfind : dbFindByWallet db (jsToLower wa) = none)
    (hnun : (env.interfere db).any
        (fun v => decide (v.username = (synthesizeWalletUser env wa).username)) = false)
    (hnem : (env.interfere db).any
        (fun v => decide (v.email = (synthesizeWalletUser env wa).email)) = false)
    (hnoc : (env.interfere db).any
        (fun v => decide (v.walletAddress = some (jsToLower wa))) = false) :
    walletAuth env req db
        = (mkWalletSuccess env.secret (synthesizeWalletUser env wa),
           env.interfere db ++ [synthesizeWalletUser env wa])
      ∧ (synthesizeWalletUser env wa).username
          = "wallet_" ++ jsToLower (jsSliceLast 8 wa)
      ∧ (synthesizeWalletUser env wa).passwordHash
          = env.hashPassword env.defaultPassword
      ∧ (synthesizeWalletUser env wa).walletConnectedAt = some env.now
      ∧ (synthesizeWalletUser env wa).lastWalletActivity = some env.now
      ∧ (synthesizeWalletUser env wa).firstName = "Wallet"
      ∧ (synthesizeWalletUser env wa).lastName = "User"
      ∧ (synthesizeWalletUser env wa).streetAddress = "Web3 Address"
      ∧ (synthesizeWalletUser env wa).city = "Crypto"
      ∧ (synthesizeWalletUser env wa).pan = "AAAAA0000A"
      ∧ (synthesizeWalletUser env wa).phoneNumber = "+919999999999" := by
  have hf : falsy (some wa) = false := falsy_eq_false_of_valid hv
  have hcr : dbCreate (env.interfere db) (synthesizeWalletUser env wa)
      = Except.ok (env.interfere db ++ [synthesizeWalletUser env wa]) := by
    unfold dbCreate
    rw [if_neg (by simp [hnun, hnem, synthesize_walletAddress, hnoc])]
  refine ⟨?_, rfl, rfl, rfl, rfl, rfl, rfl, rfl, rfl, rfl, rfl⟩
  simp [walletAuth, hwa, hf, hm, hs, hv, hacc, resolveAndRespond, hfind, hcr]

/-! ### Witnesses -/

/-- Witness for the C2 amended theorem at a concrete race. -/
theorem walletAuth_create_conflict_500_witness :
    walletAuth envRace reqLo []
      = (Response.serverError "Server error during wallet authentication",
         envRace.interfere []) :=
  walletAuth_create_conflict_500 envRace reqLo [] addrLo rfl rfl rfl rfl rfl rfl rfl

/-- Witness for the C3 theorem at a concrete pair of requests. -/
theorem walletAuth_second_call_reuses_record_witness :
    walletAuth envBase reqLo []
        = (mkWalletSuccess envBase.secret (synthesizeWalletUser envBase addrLo),
           [] ++ [synthesizeWalletUser envBase addrLo])
      ∧ walletAuth envLater reqLo ([] ++ [synthesizeWalletUser envBase addrLo])
          = (mkWalletSuccess envLater.secret
               { synthesizeWalletUser envBase addrLo with
                  lastWalletActivity := some envLater.now },
             dbSaveById ([] ++ [synthesizeWalletUser envBase addrLo])
               { synthesizeWalletUser envBase addrLo with
                  lastWalletActivity := some envLater.now })
      ∧ ({ synthesizeWalletUser envBase addrLo with
            lastWalletActivity := some envLater.now } : UserRecord).id
          = (synthesizeWalletUser envBase addrLo).id
      ∧ ({ synthesizeWalletUser envBase addrLo with
            lastWalletActivity := some envLater.now } : UserRecord).walletConnectedAt
          = (synthesizeWalletUser envBase addrLo).walletConnectedAt
      ∧ (dbSaveById ([] ++ [synthesizeWalletUser envBase addrLo])
           { synthesizeWalletUser envBase addrLo with
              lastWalletActivity := some envLater.now }).length
          = ([] ++ [synthesizeWalletUser envBase addrLo]).length
      ∧ envBase.now < envLater.now :=
  walletAuth_second_call_reuses_record envBase envLater reqLo reqLo [] addrLo
    rfl rfl rfl rfl rfl rfl rfl rfl rfl rfl rfl rfl rfl (by decide)

/-- Witness for the C4 theorem at a concrete case-variant pair. -/
theorem walletAuth_case_invariant_witness :
    walletAuth envCase ⟨some addrCaseUp, some "m", some "s"⟩ []
      = walletAuth envCase ⟨some addrCaseLo, some "m", some "s"⟩ [] :=
  walletAuth_case_invariant envCase [] addrCaseUp addrCaseLo (some "m") (some "s")
    (by decide) rfl rfl

/-- Witness for the C5 theorem at a concrete malformed address. -/
theorem walletAuth_malformed_address_rejected_witness :
    (walletAuth envBase reqBadAddr []).fst.status = 400
      ∧ (walletAuth envBase reqBadAddr []).snd = []
      ∧ walletAuth { envBase with recover := fun _ _ => Except.error "x" } reqBadAddr []
          = walletAuth envBase reqBadAddr [] :=
  walletAuth_malformed_address_rejected envBase (fun _ _ => Except.error "x")
    reqBadAddr [] "0x123" rfl rfl

/-- Witness for the C6 theorem at a concrete mismatching recovery. -/
theorem walletAuth_signature_mismatch_rejected_witness :
    walletAuth envMismatch reqLo [] = (Response.badRequest "Invalid signature", []) :=
  walletAuth_signature_mismatch_rejected envMismatch reqLo [] addrLo addrSufA
    rfl rfl rfl rfl rfl (by decide)

/-- Witness for the C7 theorem at a concrete successful wallet-auth run
and a concrete successful login run. -/
theorem walletAuth_token_lifetimes_witness :
    tokWallet24.expiresInSeconds = hoursInSeconds 24
      ∧ tokLogin1.expiresInSeconds = hoursInSeconds 1
      ∧ tokLogin1.expiresInSeconds < tokWallet24.expiresInSeconds :=
  walletAuth_token_lifetimes envBase reqLo [] tokWallet24 (toPublicUser userLo)
    (fun _ _ => true) "top" userLo.username "pw" [userLo] tokLogin1 userLo rfl rfl

/-- Witness for the C8 theorem at a concrete store and hash rewrite. -/
theorem walletAuth_response_hash_independent_witness :
    (walletAuth envBase reqLo ([userLo].map (setHash (fun _ => "OTHER")))).fst
      = (walletAuth envBase reqLo [userLo]).fst :=
  walletAuth_response_hash_independent envBase reqLo [userLo] (fun _ => "OTHER")
    (fun _ => rfl)

/-- Witness for the C9 amended theorem at a concrete first-time run. -/
theorem walletAuth_first_time_synthesis_witness :
    walletAuth envBase reqLo []
        = (mkWalletSuccess envBase.secret (synthesizeWalletUser envBase addrLo),
           envBase.interfere [] ++ [synthesizeWalletUser envBase addrLo])
      ∧ (synthesizeWalletUser envBase addrLo).username
          = "wallet_" ++ jsToLower (jsSliceLast 8 addrLo)
      ∧ (synthesizeWalletUser envBase addrLo).passwordHash
          = envBase.hashPassword envBase.defaultPassword
      ∧ (synthesizeWalletUser envBase addrLo).walletConnectedAt = some envBase.now
      ∧ (synthesizeWalletUser envBase addrLo).lastWalletActivity = some envBase.now
      ∧ (synthesizeWalletUser envBase addrLo).firstName = "Wallet"
      ∧ (synthesizeWalletUser envBase addrLo).lastName = "User"
      ∧ (synthesizeWalletUser envBase addrLo).streetAddress = "Web3 Address"
      ∧ (synthesizeWalletUser envBase addrLo).city = "Crypto"
      ∧ (synthesizeWalletUser envBase addrLo).pan = "AAAAA0000A"
      ∧ (synthesizeWalletUser envBase addrLo).phoneNumber = "+919999999999" :=
  walletAuth_first_time_synthesis envBase reqLo [] addrLo
    rfl rfl rfl rfl rfl rfl rfl rfl rfl

end NexaCred
